import Mathlib

/-!
Verification of the emerald-yield-simulator financial formula module,
dataset segmentation engine, prediction orchestrator and admin pagination.

Numbers are modelled as rationals; JavaScript Math.round is modelled
exactly as rounding to the nearest integer with ties toward positive
infinity, which on rationals is the floor of the value plus one half.
-/

namespace EmeraldYield

/-- Commission rate for simulation year 1 (src/config/constants.js). -/
def COMMISSION_RATES.YEAR_1 : ℚ := 0.30

/-- Commission rate for simulation year 2 (src/config/constants.js). -/
def COMMISSION_RATES.YEAR_2 : ℚ := 0.25

/-- Default commission rate for all other years (src/config/constants.js). -/
def COMMISSION_RATES.DEFAULT : ℚ := 0.20

/-- Average days per month constant (src/config/constants.js). -/
def PREDICTION_CONFIG.AVERAGE_DAYS_PER_MONTH : ℚ := 30.42

/-- Price margin for property segmentation (src/config/constants.js). -/
def PREDICTION_CONFIG.PRICE_MARGIN : ℚ := 0.15

/-- roundCurrency from src/utils/helpers.js: multiplies by 10^decimals,
applies Math.round (nearest integer, ties toward positive infinity,
i.e. the floor of the value plus one half), divides back. -/
def roundCurrency (value : ℚ) (decimals : ℕ := 2) : ℚ :=
  let factor : ℚ := 10 ^ decimals
  (⌊value * factor + 1/2⌋ : ℚ) / factor

/-- The year-tiered commission selection used by both netMonthlyIncome
and predictNetMonthlyIncome: strict equality tests against 1 and 2,
default rate otherwise. -/
def commissionFor (year : ℚ) : ℚ :=
  if year = 1 then COMMISSION_RATES.YEAR_1
  else if year = 2 then COMMISSION_RATES.YEAR_2
  else COMMISSION_RATES.DEFAULT

/-- netMonthlyIncome from the financial formula module. -/
def netMonthlyIncome (monthlyRent annualFee year : ℚ) : ℚ :=
  let commissionRate := commissionFor year
  let grossAnnual := monthlyRent * 12
  let netAnnual := grossAnnual * (1 - commissionRate) - annualFee
  let netMonthly := netAnnual / 12
  roundCurrency netMonthly

/-- One entry of the returnOverYears result array. -/
structure YearlyResult where
  year : ℕ
  netMonthly : ℚ
  annualNet : ℚ
  roi : ℚ
deriving DecidableEq

/-- The body of one iteration of the returnOverYears loop. -/
def yearlyResult (purchasePrice monthlyRent annualFee : ℚ) (year : ℕ) : YearlyResult :=
  let netMonthly := netMonthlyIncome monthlyRent annualFee (year : ℚ)
  let annualNet := netMonthly * 12
  let roi := if 0 < purchasePrice then annualNet / purchasePrice * 100 else 0
  ⟨year, netMonthly, roundCurrency annualNet, roundCurrency roi⟩

/-- returnOverYears from the financial formula module: validates the four
inputs and on success maps the loop body over year = 1..years.  The years
argument is a rational so that the Number.isInteger test is expressible:
it holds exactly when the denominator is 1. -/
def returnOverYears (purchasePrice monthlyRent annualFee : ℚ) (years : ℚ) : Except String (List YearlyResult) :=
  if purchasePrice ≤ 0 then Except.error ("Purchase price must be a positive number")
  else if monthlyRent < 0 then Except.error ("Monthly rent must be a non-negative number")
  else if annualFee < 0 then Except.error ("Annual fee must be a non-negative number")
  else if years < 1 ∨ years.den ≠ 1 then Except.error ("Years must be a positive integer")
  else Except.ok ((List.range years.num.toNat).map (fun i => yearlyResult purchasePrice monthlyRent annualFee (i + 1)))

/-- Claim C1: returnOverYears(200000, 1500, 1000, 3) with the default
commission tiers produces, for year 1, netMonthly = 966.67,
annualNet = 11600.04 and roi = 5.8. -/
theorem returnOverYears_concrete_year1 :
    ∃ rest, returnOverYears 200000 1500 1000 3 =
      Except.ok (⟨1, 966.67, 11600.04, 5.8⟩ :: rest) := by
  refine ⟨[yearlyResult 200000 1500 1000 2, yearlyResult 200000 1500 1000 3], ?_⟩
  rw [returnOverYears, if_neg (by norm_num), if_neg (by norm_num), if_neg (by norm_num),
    if_neg (by norm_num [Rat.den_ofNat])]
  have h3 : (3 : ℚ).num.toNat = 3 := rfl
  rw [h3]
  simp only [List.range_succ, List.range_zero, List.map_append, List.map_cons, List.map_nil,
    List.nil_append, List.cons_append, Except.ok.injEq, List.cons.injEq, and_true, Nat.zero_add]
  rw [yearlyResult]
  norm_num [netMonthlyIncome, commissionFor, COMMISSION_RATES.YEAR_1, roundCurrency]

/-- Claim C2: for every monthlyRent r, annualFee f and every year at
least 3, netMonthlyIncome(r, f, year) equals netMonthlyIncome(r, f, 3):
all years from 3 upward collapse to the default commission tier. -/
theorem netMonthlyIncome_tier_collapse (r f y : ℚ) (hy : 3 ≤ y) :
    netMonthlyIncome r f y = netMonthlyIncome r f 3 := by
  have h1 : y ≠ 1 := by intro h; rw [h] at hy; norm_num at hy
  have h2 : y ≠ 2 := by intro h; rw [h] at hy; norm_num at hy
  simp only [netMonthlyIncome, commissionFor, if_neg h1, if_neg h2]
  norm_num

/-- Witness for claim C2 at year 7. -/
theorem netMonthlyIncome_tier_collapse_witness :
    (3 : ℚ) ≤ 7 ∧ netMonthlyIncome 1500 1000 7 = netMonthlyIncome 1500 1000 3 :=
  ⟨by norm_num, netMonthlyIncome_tier_collapse 1500 1000 7 (by norm_num)⟩

/-- Rounding half away from zero at the cent, as the specification words
it: the magnitude is rounded half-up and the sign restored, so a value
whose digit past the kept precision is exactly 5 moves away from zero for
negative inputs as well as positive ones.  This definition follows the
specification, not the source, and exists to be compared with
roundCurrency. -/
def roundHalfAwayFromZero (value : ℚ) (decimals : ℕ := 2) : ℚ :=
  let factor : ℚ := 10 ^ decimals
  if 0 ≤ value then (⌊value * factor + 1/2⌋ : ℚ) / factor
  else -((⌊-value * factor + 1/2⌋ : ℚ) / factor)

/-- Claim C3, counterexample: at monthlyRent = 0, annualFee = 0.06,
year = 3 the exact net monthly value is -0.005; the code rounds it to 0
(Math.round ties go toward positive infinity) while half-away-from-zero
rounding, as the claim states, would give -0.01. -/
theorem netMonthlyIncome_not_half_away_from_zero :
    netMonthlyIncome 0 0.06 3 = 0 ∧
    roundHalfAwayFromZero ((0 * 12 * (1 - commissionFor 3) - 0.06) / 12) = -0.01 ∧
    netMonthlyIncome 0 0.06 3 ≠
      roundHalfAwayFromZero ((0 * 12 * (1 - commissionFor 3) - 0.06) / 12) := by
  norm_num [netMonthlyIncome, roundCurrency, roundHalfAwayFromZero, commissionFor,
    COMMISSION_RATES.DEFAULT]

/-- Claim C3, amended: netMonthlyIncome returns
netAnnual/12 = (monthlyRent*12*(1 - commissionRate) - annualFee)/12
rounded to the nearest cent with ties toward positive infinity
(round-half-up): the result is n/100 for the unique integer n with
value*100 - 1/2 < n ≤ value*100 + 1/2.  A negative value whose third
decimal is exactly 5 therefore rounds toward zero, not away from it. -/
theorem netMonthlyIncome_rounds_half_up (r f y : ℚ) :
    ∃ n : ℤ, netMonthlyIncome r f y = (n : ℚ) / 100 ∧
      (r * 12 * (1 - commissionFor y) - f) / 12 * 100 - 1/2 < (n : ℚ) ∧
      (n : ℚ) ≤ (r * 12 * (1 - commissionFor y) - f) / 12 * 100 + 1/2 := by
  set v : ℚ := (r * 12 * (1 - commissionFor y) - f) / 12 with hv
  refine ⟨⌊v * 100 + 1/2⌋, ?_, ?_, ?_⟩
  · simp only [netMonthlyIncome, roundCurrency, hv]
    norm_num
  · have h := Int.lt_floor_add_one (v * 100 + 1/2)
    push_cast at h ⊢
    linarith
  · have h := Int.floor_le (v * 100 + 1/2)
    push_cast at h ⊢
    linarith

/-- Claim C4: returnOverYears fails with a validation error exactly when
purchasePrice ≤ 0, monthlyRent < 0, annualFee < 0, or years is below 1
or not an integer; on any valid input it returns the ordered sequence of
YearlyResult entries for year = 1..years. -/
theorem returnOverYears_validation (p r f years : ℚ) :
    ((∃ e, returnOverYears p r f years = Except.error e) ↔
      (p ≤ 0 ∨ r < 0 ∨ f < 0 ∨ years < 1 ∨ years.den ≠ 1)) ∧
    (∀ l, returnOverYears p r f years = Except.ok l →
      l.length = years.num.toNat ∧
      ∀ i (h : i < l.length),
        l.get ⟨i, h⟩ = yearlyResult p r f (i + 1) ∧ (l.get ⟨i, h⟩).year = i + 1) := by
  rw [returnOverYears]
  split_ifs with h1 h2 h3 h4
  · refine ⟨⟨fun _ => Or.inl h1, fun _ => ⟨_, rfl⟩⟩, ?_⟩
    intro l hl
    exact hl.elim
  · refine ⟨⟨fun _ => Or.inr (Or.inl h2), fun _ => ⟨_, rfl⟩⟩, ?_⟩
    intro l hl
    exact hl.elim
  · refine ⟨⟨fun _ => Or.inr (Or.inr (Or.inl h3)), fun _ => ⟨_, rfl⟩⟩, ?_⟩
    intro l hl
    exact hl.elim
  · refine ⟨⟨fun _ => ?_, fun _ => ⟨_, rfl⟩⟩, ?_⟩
    · rcases h4 with h | h
      · exact Or.inr (Or.inr (Or.inr (Or.inl h)))
      · exact Or.inr (Or.inr (Or.inr (Or.inr h)))
    · intro l hl
      exact hl.elim
  · constructor
    · constructor
      · rintro ⟨e, he⟩
        exact he.elim
      · intro hbad
        rcases hbad with h | h | h | h | h
        · exact absurd h h1
        · exact absurd h h2
        · exact absurd h h3
        · exact absurd (Or.inl h) h4
        · exact absurd (Or.inr h) h4
    · intro l hl
      have hl2 : (List.range years.num.toNat).map
          (fun i => yearlyResult p r f (i + 1)) = l := by
        injection hl
      subst hl2
      refine ⟨by simp, ?_⟩
      intro i hi
      simp only [List.get_eq_getElem, List.getElem_map]
      have hi2 : i < years.num.toNat := by simpa using hi
      simp [List.getElem_range, yearlyResult]

/-- Witness for claim C4: years = 0 is rejected, years = 2 succeeds with
a two-entry sequence. -/
theorem returnOverYears_validation_witness :
    (∃ e, returnOverYears 1 0 0 0 = Except.error e) ∧
    [yearlyResult 1 0 0 1, yearlyResult 1 0 0 2].length = (2 : ℚ).num.toNat := by
  have hok : returnOverYears 1 0 0 2 =
      Except.ok [yearlyResult 1 0 0 1, yearlyResult 1 0 0 2] := by
    rw [returnOverYears, if_neg (by norm_num), if_neg (by norm_num),
      if_neg (by norm_num), if_neg (by norm_num [Rat.den_ofNat])]
    rfl
  exact ⟨(returnOverYears_validation 1 0 0 0).1.mpr
      (Or.inr (Or.inr (Or.inr (Or.inl (by norm_num))))),
    ((returnOverYears_validation 1 0 0 2).2 _ hok).1⟩

/-- One parsed CSV row of the historical dataset (dataLoader): the four
numeric columns are cast to numbers, is_booked to an integer, other
columns stay text. -/
structure DatasetRecord where
  date : String
  property_id : String
  surface_m2 : ℚ
  bedrooms : ℚ
  location_score : ℚ
  listing_price : ℚ
  is_booked : ℤ
deriving DecidableEq

/-- The statistics object computed by calculateDatasetStats, plus the
available flag that the prediction service sets afterwards (absent, hence
falsy, on the object calculateDatasetStats itself builds). -/
structure DatasetStatistics where
  avgSurface : ℚ
  avgBedrooms : ℚ
  avgLocationScore : ℚ
  avgListingPrice : ℚ
  bookingRate : ℚ
  totalProperties : ℕ
  available : Bool
deriving DecidableEq

/-- calculateDatasetStats from the dataset loader: arithmetic means of the
four numeric fields and the booking rate count(is_booked=1)/count(all);
a zero-valued object for an empty dataset. -/
def calculateDatasetStats (dataset : List DatasetRecord) : DatasetStatistics :=
  if dataset.length = 0 then ⟨0, 0, 0, 0, 0, 0, false⟩
  else
    let n : ℚ := dataset.length
    let totalBooked := (dataset.filter (fun x => decide (x.is_booked = 1))).length
    ⟨(dataset.map (fun x => x.surface_m2)).sum / n,
     (dataset.map (fun x => x.bedrooms)).sum / n,
     (dataset.map (fun x => x.location_score)).sum / n,
     (dataset.map (fun x => x.listing_price)).sum / n,
     (totalBooked : ℚ) / n,
     dataset.length, false⟩

/-- filterDatasetByPrice from the dataset loader: inclusive-bounds linear
filter on listing_price. -/
def filterDatasetByPrice (dataset : List DatasetRecord) (minPrice maxPrice : ℚ) : List DatasetRecord :=
  if dataset.length = 0 then []
  else dataset.filter (fun x => decide (minPrice ≤ x.listing_price ∧ x.listing_price ≤ maxPrice))

/-- calculateSegmentedAOR from the dataset loader: booking rate of the
filtered set, 0 for an empty set. -/
def calculateSegmentedAOR (filteredDataset : List DatasetRecord) : ℚ :=
  if filteredDataset.length = 0 then 0
  else ((filteredDataset.filter (fun x => decide (x.is_booked = 1))).length : ℚ) /
    filteredDataset.length

/-- The process-wide cache of the prediction service after getDatasetStats
has settled: the available flag and the cached dataset rows. -/
structure LoadedState where
  available : Bool
  cachedDataset : List DatasetRecord
deriving DecidableEq

/-- The cached statistics as getDatasetStats leaves them: stats computed
from the cached dataset with available set to true, or the zero-valued
unavailable object. -/
def getDatasetStats (s : LoadedState) : DatasetStatistics :=
  if s.available then { calculateDatasetStats s.cachedDataset with available := true }
  else ⟨0, 0, 0, 0, 0, 0, false⟩

/-- The per-request segmentation result of the prediction service. -/
structure SegmentationResult where
  segmentedAOR : ℚ
  globalAOR : ℚ
  filteredCount : ℕ
  totalCount : ℕ
  usedSegmentation : Bool
  estimatedDailyPrice : Option ℚ
  priceRange : Option (ℚ × ℚ)
deriving DecidableEq

/-- estimatedDailyPrice = monthlyRent / AVERAGE_DAYS_PER_MONTH. -/
def estimatedDailyPriceOf (monthlyRent : ℚ) : ℚ :=
  monthlyRent / PREDICTION_CONFIG.AVERAGE_DAYS_PER_MONTH

/-- Lower bound of the ±15% price band. -/
def bandMin (monthlyRent : ℚ) : ℚ :=
  estimatedDailyPriceOf monthlyRent * (1 - PREDICTION_CONFIG.PRICE_MARGIN)

/-- Upper bound of the ±15% price band. -/
def bandMax (monthlyRent : ℚ) : ℚ :=
  estimatedDailyPriceOf monthlyRent * (1 + PREDICTION_CONFIG.PRICE_MARGIN)

/-- calculateSegmentedOccupancyRate from src/services/prediction.js:
returns null when stats are unavailable; the global-rate object when the
cached dataset is empty or the price band matches nothing; the segmented
rate otherwise. -/
def calculateSegmentedOccupancyRate (s : LoadedState) (monthlyRent : ℚ) : Option SegmentationResult :=
  let stats := getDatasetStats s
  if stats.available = false then none
  else if s.cachedDataset.length = 0 then
    some ⟨stats.bookingRate, stats.bookingRate, 0, 0, false, none, none⟩
  else
    let filteredDataset :=
      filterDatasetByPrice s.cachedDataset (bandMin monthlyRent) (bandMax monthlyRent)
    if filteredDataset.length = 0 then
      some ⟨stats.bookingRate, stats.bookingRate, 0, s.cachedDataset.length, false, none, none⟩
    else
      some ⟨calculateSegmentedAOR filteredDataset, stats.bookingRate,
        filteredDataset.length, s.cachedDataset.length, true,
        some (estimatedDailyPriceOf monthlyRent),
        some (bandMin monthlyRent, bandMax monthlyRent)⟩

/-- Inversion of calculateSegmentedOccupancyRate: any returned result came
from one of the three success branches, and only with available stats. -/
theorem calculateSegmentedOccupancyRate_inversion (s : LoadedState) (r : ℚ)
    (res : SegmentationResult) (h : calculateSegmentedOccupancyRate s r = some res) :
    s.available = true ∧
    ((s.cachedDataset.length = 0 ∧
        res = ⟨(calculateDatasetStats s.cachedDataset).bookingRate,
          (calculateDatasetStats s.cachedDataset).bookingRate, 0, 0, false, none, none⟩) ∨
      (s.cachedDataset.length ≠ 0 ∧
        (filterDatasetByPrice s.cachedDataset (bandMin r) (bandMax r)).length = 0 ∧
        res = ⟨(calculateDatasetStats s.cachedDataset).bookingRate,
          (calculateDatasetStats s.cachedDataset).bookingRate, 0,
          s.cachedDataset.length, false, none, none⟩) ∨
      (s.cachedDataset.length ≠ 0 ∧
        (filterDatasetByPrice s.cachedDataset (bandMin r) (bandMax r)).length ≠ 0 ∧
        res = ⟨calculateSegmentedAOR
            (filterDatasetByPrice s.cachedDataset (bandMin r) (bandMax r)),
          (calculateDatasetStats s.cachedDataset).bookingRate,
          (filterDatasetByPrice s.cachedDataset (bandMin r) (bandMax r)).length,
          s.cachedDataset.length, true,
          some (estimatedDailyPriceOf r), some (bandMin r, bandMax r)⟩)) := by
  cases hs : s.available
  · simp [calculateSegmentedOccupancyRate, getDatasetStats, hs] at h
  · refine ⟨rfl, ?_⟩
    simp only [calculateSegmentedOccupancyRate, getDatasetStats, hs, if_true] at h
    rw [if_neg (by simp)] at h
    split_ifs at h with hlen hfil
    · simp only [Option.some.injEq] at h
      exact Or.inl ⟨hlen, h.symm⟩
    · simp only [Option.some.injEq] at h
      exact Or.inr (Or.inl ⟨hlen, hfil, h.symm⟩)
    · simp only [Option.some.injEq] at h
      exact Or.inr (Or.inr ⟨hlen, hfil, h.symm⟩)

/-- Claim C5, counterexample: when the dataset is unavailable the
function returns null (the prediction is disabled) instead of a
SegmentationResult carrying the global booking rate, so the claim that
the unavailable case also falls back to the global rate is false. -/
theorem calculateSegmentedOccupancyRate_unavailable_is_none :
    calculateSegmentedOccupancyRate ⟨false, []⟩ 1 = none := by
  simp [calculateSegmentedOccupancyRate, getDatasetStats]

/-- Claim C5, amended: for every monthlyRent, when the dataset is
available but empty, or the ±15% price band matches zero records,
calculateSegmentedOccupancyRate returns the global booking rate as
segmentedAOR with usedSegmentation = false; when the dataset is
unavailable it instead returns null (prediction disabled). -/
theorem calculateSegmentedOccupancyRate_fallback (d : List DatasetRecord) (r : ℚ) :
    (d = [] → calculateSegmentedOccupancyRate ⟨true, d⟩ r =
      some ⟨(calculateDatasetStats d).bookingRate,
        (calculateDatasetStats d).bookingRate, 0, 0, false, none, none⟩) ∧
    (d ≠ [] → filterDatasetByPrice d (bandMin r) (bandMax r) = [] →
      calculateSegmentedOccupancyRate ⟨true, d⟩ r =
      some ⟨(calculateDatasetStats d).bookingRate,
        (calculateDatasetStats d).bookingRate, 0, d.length, false, none, none⟩) := by
  constructor
  · intro hd
    subst hd
    simp [calculateSegmentedOccupancyRate, getDatasetStats]
  · intro hd hfil
    simp only [calculateSegmentedOccupancyRate, getDatasetStats, if_true] at *
    rw [if_neg (by simp)]
    rw [if_neg (by simp [List.length_eq_zero, hd]), if_pos (by simp [hfil])]

/-- A concrete dataset row used by witnesses: booked, listed at 1000. -/
def sampleRecord : DatasetRecord :=
  ⟨"2024-01-01", "prop-1", 50, 2, 5, 1000, 1⟩

/-- Witness for claim C5: the empty-dataset fallback at rent 2, and the
empty-band fallback at rent 1 against a one-row dataset priced far
outside the band. -/
theorem calculateSegmentedOccupancyRate_fallback_witness :
    calculateSegmentedOccupancyRate ⟨true, []⟩ 2 =
      some ⟨(calculateDatasetStats []).bookingRate,
        (calculateDatasetStats []).bookingRate, 0, 0, false, none, none⟩ ∧
    calculateSegmentedOccupancyRate ⟨true, [sampleRecord]⟩ 1 =
      some ⟨(calculateDatasetStats [sampleRecord]).bookingRate,
        (calculateDatasetStats [sampleRecord]).bookingRate, 0, 1, false, none, none⟩ := by
  have hfil : filterDatasetByPrice [sampleRecord] (bandMin 1) (bandMax 1) = [] := by
    have hband : ¬ (bandMin 1 ≤ (1000 : ℚ) ∧ (1000 : ℚ) ≤ bandMax 1) := by
      norm_num [bandMin, bandMax, estimatedDailyPriceOf,
        PREDICTION_CONFIG.AVERAGE_DAYS_PER_MONTH, PREDICTION_CONFIG.PRICE_MARGIN]
    simp [filterDatasetByPrice, List.filter, sampleRecord, hband]
  exact ⟨(calculateSegmentedOccupancyRate_fallback [] 2).1 rfl,
    (calculateSegmentedOccupancyRate_fallback [sampleRecord] 1).2 (by simp) hfil⟩

/-- Claim C6: whenever calculateSegmentedOccupancyRate returns a non-null
result, its globalAOR equals the booking rate of the full unfiltered
cached dataset, and when the filtered set is empty the returned
segmentedAOR equals that global rate with usedSegmentation = false. -/
theorem segmentation_globalAOR_is_dataset_bookingRate (s : LoadedState) (r : ℚ)
    (res : SegmentationResult) (h : calculateSegmentedOccupancyRate s r = some res) :
    res.globalAOR = (calculateDatasetStats s.cachedDataset).bookingRate ∧
    (res.filteredCount = 0 → res.segmentedAOR = res.globalAOR ∧
      res.usedSegmentation = false) := by
  obtain ⟨-, hcase⟩ := calculateSegmentedOccupancyRate_inversion s r res h
  rcases hcase with ⟨-, hres⟩ | ⟨-, -, hres⟩ | ⟨-, hfil, hres⟩
  · subst hres
    exact ⟨rfl, fun _ => ⟨rfl, rfl⟩⟩
  · subst hres
    exact ⟨rfl, fun _ => ⟨rfl, rfl⟩⟩
  · subst hres
    exact ⟨rfl, fun h0 => absurd h0 hfil⟩

/-- Witness for claim C6 on the available-but-empty dataset state. -/
theorem segmentation_globalAOR_witness :
    (⟨0, 0, 0, 0, false, none, none⟩ : SegmentationResult).globalAOR =
      (calculateDatasetStats ([] : List DatasetRecord)).bookingRate ∧
    ((⟨0, 0, 0, 0, false, none, none⟩ : SegmentationResult).filteredCount = 0 →
      (⟨0, 0, 0, 0, false, none, none⟩ : SegmentationResult).segmentedAOR =
        (⟨0, 0, 0, 0, false, none, none⟩ : SegmentationResult).globalAOR ∧
      (⟨0, 0, 0, 0, false, none, none⟩ : SegmentationResult).usedSegmentation = false) :=
  segmentation_globalAOR_is_dataset_bookingRate ⟨true, []⟩ 0
    ⟨0, 0, 0, 0, false, none, none⟩
    (by simp [calculateSegmentedOccupancyRate, getDatasetStats, calculateDatasetStats])

/-- A count over a list divided by its length lies in the unit interval. -/
theorem count_div_length_mem_unit (k n : ℕ) (hk : k ≤ n) (hn : 0 < n) :
    0 ≤ (k : ℚ) / n ∧ (k : ℚ) / n ≤ 1 := by
  constructor
  · positivity
  · rw [div_le_one (by exact_mod_cast hn)]
    exact_mod_cast hk

/-- Claim C8: every booking rate the system computes (the global
bookingRate of calculateDatasetStats, calculateSegmentedAOR, and the
segmentedAOR and globalAOR in any SegmentationResult) lies in [0, 1],
and in every SegmentationResult filteredCount ≤ totalCount. -/
theorem booking_rates_in_unit_interval :
    (∀ d : List DatasetRecord,
      0 ≤ (calculateDatasetStats d).bookingRate ∧
        (calculateDatasetStats d).bookingRate ≤ 1) ∧
    (∀ fd : List DatasetRecord,
      0 ≤ calculateSegmentedAOR fd ∧ calculateSegmentedAOR fd ≤ 1) ∧
    (∀ (s : LoadedState) (r : ℚ) (res : SegmentationResult),
      calculateSegmentedOccupancyRate s r = some res →
      0 ≤ res.segmentedAOR ∧ res.segmentedAOR ≤ 1 ∧
        0 ≤ res.globalAOR ∧ res.globalAOR ≤ 1 ∧
        res.filteredCount ≤ res.totalCount) := by
  have hstats : ∀ d : List DatasetRecord,
      0 ≤ (calculateDatasetStats d).bookingRate ∧
        (calculateDatasetStats d).bookingRate ≤ 1 := by
    intro d
    rw [calculateDatasetStats]
    split_ifs with h0
    · norm_num
    · exact count_div_length_mem_unit _ _ (List.length_filter_le _ d)
        (Nat.pos_of_ne_zero h0)
  have haor : ∀ fd : List DatasetRecord,
      0 ≤ calculateSegmentedAOR fd ∧ calculateSegmentedAOR fd ≤ 1 := by
    intro fd
    rw [calculateSegmentedAOR]
    split_ifs with h0
    · norm_num
    · exact count_div_length_mem_unit _ _ (List.length_filter_le _ fd)
        (Nat.pos_of_ne_zero h0)
  refine ⟨hstats, haor, ?_⟩
  intro s r res h
  obtain ⟨-, hcase⟩ := calculateSegmentedOccupancyRate_inversion s r res h
  rcases hcase with ⟨-, hres⟩ | ⟨hlen, -, hres⟩ | ⟨hlen, -, hres⟩ <;> subst hres
  · exact ⟨(hstats _).1, (hstats _).2, (hstats _).1, (hstats _).2, le_refl 0⟩
  · exact ⟨(hstats _).1, (hstats _).2, (hstats _).1, (hstats _).2, Nat.zero_le _⟩
  · refine ⟨(haor _).1, (haor _).2, (hstats _).1, (hstats _).2, ?_⟩
    show (filterDatasetByPrice s.cachedDataset (bandMin r) (bandMax r)).length ≤
      s.cachedDataset.length
    rw [filterDatasetByPrice]
    split_ifs
    · simp
    · exact List.length_filter_le _ _

/-- Witness for claim C8 on the available-but-empty dataset state. -/
theorem booking_rates_in_unit_interval_witness :
    0 ≤ (⟨0, 0, 0, 0, false, none, none⟩ : SegmentationResult).segmentedAOR ∧
    (⟨0, 0, 0, 0, false, none, none⟩ : SegmentationResult).segmentedAOR ≤ 1 ∧
    0 ≤ (⟨0, 0, 0, 0, false, none, none⟩ : SegmentationResult).globalAOR ∧
    (⟨0, 0, 0, 0, false, none, none⟩ : SegmentationResult).globalAOR ≤ 1 ∧
    (⟨0, 0, 0, 0, false, none, none⟩ : SegmentationResult).filteredCount ≤
      (⟨0, 0, 0, 0, false, none, none⟩ : SegmentationResult).totalCount :=
  booking_rates_in_unit_interval.2.2 ⟨true, []⟩ 0 ⟨0, 0, 0, 0, false, none, none⟩
    (by simp [calculateSegmentedOccupancyRate, getDatasetStats, calculateDatasetStats])

/-- The object predictNetMonthlyIncome returns on success. -/
structure PredictionIncome where
  netMonthly : ℚ
  adjustedMonthlyRent : ℚ
  bookingRate : ℚ
  occupancyRate : ℚ
  bookedDaysPerMonth : ℚ
  segmentedAOR : ℚ
  globalAOR : ℚ
  filteredCount : ℕ
  totalCount : ℕ
  usedSegmentation : Bool

/-- predictNetMonthlyIncome from src/services/prediction.js: null when the
dataset is unavailable, otherwise the segmented occupancy rate scales the
rent before the same commission-tier formula. -/
def predictNetMonthlyIncome (s : LoadedState) (monthlyRent annualFee year : ℚ) :
    Option PredictionIncome :=
  let stats := getDatasetStats s
  if stats.available = false then none
  else
    match calculateSegmentedOccupancyRate s monthlyRent with
    | none => none
    | some segmentation =>
      let occupancyRate := segmentation.segmentedAOR
      let adjustedMonthlyRent := monthlyRent * occupancyRate
      let commissionRate := commissionFor year
      let grossAnnual := adjustedMonthlyRent * 12
      let netAnnual := grossAnnual * (1 - commissionRate) - annualFee
      let netMonthly := netAnnual / 12
      let bookedDaysPerMonth := occupancyRate * PREDICTION_CONFIG.AVERAGE_DAYS_PER_MONTH
      some ⟨roundCurrency netMonthly, roundCurrency adjustedMonthlyRent,
        occupancyRate, occupancyRate * 100, roundCurrency bookedDaysPerMonth,
        segmentation.segmentedAOR, segmentation.globalAOR,
        segmentation.filteredCount, segmentation.totalCount,
        segmentation.usedSegmentation⟩

/-- One entry of the predictReturnOverYears result array. -/
structure PredictedYearly where
  year : ℕ
  netMonthly : ℚ
  annualNet : ℚ
  roi : ℚ
  adjustedMonthlyRent : ℚ
  bookingRate : ℚ
  occupancyRate : ℚ
  bookedDaysPerMonth : ℚ
  segmentedAOR : ℚ
  globalAOR : ℚ
  filteredCount : ℕ
  totalCount : ℕ
  usedSegmentation : Bool

/-- The body of one iteration of the predictReturnOverYears loop. -/
def predictedYearly (purchasePrice : ℚ) (year : ℕ) (pred : PredictionIncome) :
    PredictedYearly :=
  let annualNet := pred.netMonthly * 12
  let roi := if 0 < purchasePrice then annualNet / purchasePrice * 100 else 0
  ⟨year, pred.netMonthly, roundCurrency annualNet, roundCurrency roi,
    pred.adjustedMonthlyRent, pred.bookingRate, pred.occupancyRate,
    pred.bookedDaysPerMonth, pred.segmentedAOR, pred.globalAOR,
    pred.filteredCount, pred.totalCount, pred.usedSegmentation⟩

/-- The predictReturnOverYears loop, counting down the remaining years:
returns null as soon as any per-year prediction is null, otherwise
accumulates one entry per year. -/
def predictGo (s : LoadedState) (purchasePrice monthlyRent annualFee : ℚ) :
    ℕ → ℕ → Option (List PredictedYearly)
  | _, 0 => some []
  | year, fuel + 1 =>
    match predictNetMonthlyIncome s monthlyRent annualFee (year : ℚ) with
    | none => none
    | some pred =>
      match predictGo s purchasePrice monthlyRent annualFee (year + 1) fuel with
      | none => none
      | some rest => some (predictedYearly purchasePrice year pred :: rest)

/-- predictReturnOverYears from src/services/prediction.js: sequences
predictNetMonthlyIncome across years 1..years. -/
def predictReturnOverYears (s : LoadedState) (purchasePrice monthlyRent annualFee : ℚ)
    (years : ℕ) : Option (List PredictedYearly) :=
  predictGo s purchasePrice monthlyRent annualFee 1 years

/-- An unavailable dataset disables every per-year prediction. -/
theorem predictNetMonthlyIncome_none_of_unavailable (s : LoadedState) (r f y : ℚ)
    (hs : s.available = false) : predictNetMonthlyIncome s r f y = none := by
  simp [predictNetMonthlyIncome, getDatasetStats, hs]

/-- Any list the prediction loop returns has exactly one entry per
remaining year, with consecutive year indices from the start year. -/
theorem predictGo_some_complete (s : LoadedState) (p r f : ℚ) :
    ∀ (fuel year : ℕ) (l : List PredictedYearly),
      predictGo s p r f year fuel = some l →
      l.length = fuel ∧ ∀ i (h : i < l.length), (l.get ⟨i, h⟩).year = year + i := by
  intro fuel
  induction fuel with
  | zero =>
    intro year l h
    simp only [predictGo, Option.some.injEq] at h
    subst h
    refine ⟨rfl, ?_⟩
    intro i hi
    simp at hi
  | succ n ih =>
    intro year l h
    simp only [predictGo] at h
    cases hp : predictNetMonthlyIncome s r f (year : ℚ) with
    | none =>
      rw [hp] at h
      simp at h
    | some pred =>
      rw [hp] at h
      cases hg : predictGo s p r f (year + 1) n with
      | none =>
        rw [hg] at h
        simp at h
      | some rest =>
        rw [hg] at h
        simp only [Option.some.injEq] at h
        subst h
        obtain ⟨hlen, hyear⟩ := ih (year + 1) rest hg
        refine ⟨by simp [hlen], ?_⟩
        intro i hi
        cases i with
        | zero =>
          simp [predictedYearly]
        | succ j =>
          have hj : j < rest.length := by
            simp at hi
            omega
          have := hyear j hj
          simp only [List.get_eq_getElem, List.getElem_cons_succ]
          simp only [List.get_eq_getElem] at this
          omega

/-- Claim C7: for every state and positive years, if the dataset is
unavailable then predictReturnOverYears returns null in its entirety, and
any non-null result covers every year 1..years — never a partial
sequence. -/
theorem predictReturnOverYears_all_or_nothing (s : LoadedState) (p r f : ℚ)
    (years : ℕ) (hy : 1 ≤ years) :
    (s.available = false → predictReturnOverYears s p r f years = none) ∧
    (∀ l, predictReturnOverYears s p r f years = some l →
      l.length = years ∧ ∀ i (h : i < l.length), (l.get ⟨i, h⟩).year = 1 + i) := by
  constructor
  · intro hs
    obtain ⟨n, rfl⟩ : ∃ n, years = n + 1 := ⟨years - 1, by omega⟩
    simp [predictReturnOverYears, predictGo,
      predictNetMonthlyIncome_none_of_unavailable s r f 1 hs]
  · intro l hl
    exact predictGo_some_complete s p r f years 1 l hl

/-- Witness for claim C7: with the dataset unavailable, a 3-year
prediction request yields null, not a partial sequence. -/
theorem predictReturnOverYears_all_or_nothing_witness :
    predictReturnOverYears ⟨false, []⟩ 1 1 0 3 = none :=
  (predictReturnOverYears_all_or_nothing ⟨false, []⟩ 1 1 0 3 (by norm_num)).1 rfl

/-- Claim C10: for every monthlyRent and annualFee, the default (20%)
commission rate applies to every year other than exactly 1 or exactly 2 —
including 0, negative and non-integer years — because tier selection
tests strict equality; the same holds for the tier chosen inside
predictNetMonthlyIncome. -/
theorem default_tier_for_all_other_years (r f y : ℚ) (h1 : y ≠ 1) (h2 : y ≠ 2) :
    commissionFor y = COMMISSION_RATES.DEFAULT ∧
    netMonthlyIncome r f y = netMonthlyIncome r f 3 ∧
    ∀ s : LoadedState, predictNetMonthlyIncome s r f y = predictNetMonthlyIncome s r f 3 := by
  have hc : commissionFor y = COMMISSION_RATES.DEFAULT := by
    simp [commissionFor, h1, h2]
  have hc3 : commissionFor 3 = COMMISSION_RATES.DEFAULT := by
    norm_num [commissionFor]
  refine ⟨hc, ?_, ?_⟩
  · simp only [netMonthlyIncome, hc, hc3]
  · intro s
    simp only [predictNetMonthlyIncome, hc, hc3]

/-- Witness for claim C10 at the non-integer year 1.5. -/
theorem default_tier_for_all_other_years_witness :
    commissionFor 1.5 = COMMISSION_RATES.DEFAULT ∧
    netMonthlyIncome 100 0 1.5 = netMonthlyIncome 100 0 3 ∧
    predictNetMonthlyIncome ⟨false, []⟩ 100 0 1.5 =
      predictNetMonthlyIncome ⟨false, []⟩ 100 0 3 := by
  have h := default_tier_for_all_other_years 100 0 1.5 (by norm_num) (by norm_num)
  exact ⟨h.1, h.2.1, h.2.2 ⟨false, []⟩⟩

/-- The pagination object the admin listSimulations handler renders. -/
structure PaginationView where
  currentPage : ℕ
  totalPages : ℤ
  total : ℕ
  limit : ℕ
  hasNext : Bool
  hasPrev : Bool

/-- The pagination computation in listSimulations:
totalPages = ceil(total/limit), hasNext = page < totalPages,
hasPrev = page > 1. -/
def paginationView (page total limit : ℕ) : PaginationView :=
  let totalPages : ℤ := ⌈(total : ℚ) / (limit : ℚ)⌉
  ⟨page, totalPages, total, limit, decide ((page : ℤ) < totalPages), decide (1 < page)⟩

/-- Claim C9: with total = 45 and limit = 20, totalPages = 3; hasNext is
true for pages 1 and 2 and false for page 3; hasPrev is false exactly for
page 1. -/
theorem pagination_total45_limit20 :
    (paginationView 1 45 20).totalPages = 3 ∧
    (paginationView 2 45 20).totalPages = 3 ∧
    (paginationView 3 45 20).totalPages = 3 ∧
    (paginationView 1 45 20).hasNext = true ∧
    (paginationView 2 45 20).hasNext = true ∧
    (paginationView 3 45 20).hasNext = false ∧
    (paginationView 1 45 20).hasPrev = false ∧
    (paginationView 2 45 20).hasPrev = true ∧
    (paginationView 3 45 20).hasPrev = true := by
  have htp : (⌈(45 : ℚ) / (20 : ℚ)⌉ : ℤ) = 3 := by
    rw [Int.ceil_eq_iff]
    constructor <;> norm_num
  simp [paginationView, htp]

end EmeraldYield
